import Mathlib

/-!
The program `nginx_allowlist.go` (fetch, aggregate, write), as a shallow
embedding.

* A Go `string` is a Lean `String`; a Go `[]string` is a `List String`.
  Lengths that Go measures in bytes are measured here in UTF-8 bytes.
* What the program reads from its surroundings is an explicit argument:
  the result of `http.Get`, the clock reading `time.Now().String()`, whether
  `os.Create` and the writes to the file succeed, the value of
  `runtime.GOOS`.
* The two lists `ipv4List` / `ipv6List`, which the goroutines share through
  pointers, and the standard output are a `State` that each `fetchIPList`
  takes and gives back.  Each goroutine does one thing to that state (it
  prints one diagnostic, or it appends its lines under the mutex) and
  `wg.Wait()` is a barrier, so one run is the list of sources in the order
  in which their goroutines did that one thing.
-/

set_option maxRecDepth 100000

namespace NginxAllowlist

/-! ## Package-level variables -/

/-- The constant `outputFileName`. -/
def outputFileName : String := "allow-cloudflare-only.conf"

/-- The package variable `IP_URLS` as initialised. -/
def IP_URLS : List String :=
  [ "https://www.cloudflare.com/ips-v4",
    "https://www.cloudflare.com/ips-v6",
    "https://uptimerobot.com/inc/files/ips/IPv4.txt",
    "https://uptimerobot.com/inc/files/ips/IPv6.txt" ]

/-- The package variable `CUSTOM_ALLOW_LIST` as initialised. -/
def CUSTOM_ALLOW_LIST : List String :=
  [ "192.168.50.0/24" ]

/-! ## Library functions used by the program -/

/-- The function `strings.HasPrefix`, on the characters of the two strings. -/
def HasPrefix : List Char → List Char → Bool
  | _, [] => true
  | [], _ :: _ => false
  | c :: s, d :: p => c == d && HasPrefix s p

/-- Search of `strings.Index`: is `substr` found at some position of `s`? -/
def ContainsAt (substr : List Char) : List Char → Bool
  | [] => HasPrefix [] substr
  | c :: s => HasPrefix (c :: s) substr || ContainsAt substr s

/-- The function `strings.Contains(s, substr)`. -/
def Contains (s substr : String) : Bool :=
  ContainsAt substr.data s.data

/-- The constant `bufio.MaxScanTokenSize`, the size of the largest buffer a `Scanner`
made by `bufio.NewScanner` allocates. -/
def MaxScanTokenSize : Nat := 64 * 1024

/-- Number of bytes of a piece of text. -/
def byteLen (data : List Char) : Nat :=
  (data.map Char.utf8Size).sum

/-- The function `dropCR` of `bufio`: drop one terminal carriage return. -/
def dropCR (data : List Char) : List Char :=
  if 0 < data.length ∧ data.get? (data.length - 1) = some '\r' then
    data.take (data.length - 1)
  else data

/-- The function `bufio.ScanLines`, the split function of a new `Scanner`: the number of
characters to advance and the token, if the data holds one. -/
def ScanLines (data : List Char) (atEOF : Bool) : Nat × Option (List Char) :=
  if atEOF = true ∧ data.length = 0 then (0, none)
  else
    let i := data.indexOf '\n'
    if i < data.length then (i + 1, some (dropCR (data.take i)))
    else if atEOF = true then (data.length, some (dropCR data))
    else (0, none)

/-- A response body as the scanner meets it: the bytes its reader delivers,
how the reading ends (`none` for `io.EOF`, or an I/O error), and whether the
end is signalled by the same `Read` call that delivers the last bytes. -/
structure Body where
  data : String
  readErr : Option String
  endWithData : Bool
deriving DecidableEq, Repr

/-- The error `Scanner.Err` reports. -/
inductive ScanError
  | ErrTooLong
  | readError (msg : String)
deriving DecidableEq, Repr

/-- Outcome of one call of `Scanner.Scan`. -/
inductive ScanStep
  | token (text : List Char) (rest : List Char)
  | stop (err : Option ScanError)
deriving DecidableEq, Repr

/-- One call of `Scanner.Scan` with the split function `ScanLines`, on the
part `rest` of the body not yet consumed.  The buffer handling is summarised
by its effect: the split function gets a whole line as soon as the buffer
holds it, it gets the remaining data with `atEOF` once the reader has
ended, and the scan stops with `ErrTooLong` when the buffer of
`MaxScanTokenSize` bytes is full before either happens. -/
def Scan (body : Body) (rest : List Char) : ScanStep :=
  let i := rest.indexOf '\n'
  if i < rest.length then
    if MaxScanTokenSize ≤ byteLen (rest.take i) then .stop (some .ErrTooLong)
    else
      match ScanLines (rest.take (i + 1)) false with
      | (advance, some token) => .token token (rest.drop advance)
      | (_, none) => .stop (some .ErrTooLong)
  else if MaxScanTokenSize < byteLen rest
      ∨ (MaxScanTokenSize = byteLen rest ∧ body.endWithData = false) then
    .stop (some .ErrTooLong)
  else
    match ScanLines rest true with
    | (advance, some token) => .token token (rest.drop advance)
    | (_, none) => .stop (body.readErr.map .readError)

/-- Size of what remains to scan after a step. -/
def ScanStep.remaining : ScanStep → Nat
  | .token _ rest => rest.length + 1
  | .stop _ => 0

theorem indexOf_take_succ (a : Char) (l : List Char) (h : l.indexOf a < l.length) :
    (l.take (l.indexOf a + 1)).indexOf a = l.indexOf a := by
  induction l with
  | nil => simp at h
  | cons b t ih =>
    by_cases hb : b = a
    · subst hb; simp [List.indexOf_cons]
    · have hb' : (b == a) = false := by simpa using hb
      simp only [List.indexOf_cons, hb', cond_false, List.length_cons] at h ⊢
      simp only [List.take_succ_cons, List.indexOf_cons, hb', cond_false]
      rw [ih (by omega)]

/-- What `Scan` does when a newline lies ahead. -/
theorem Scan_of_newline (body : Body) (rest : List Char)
    (h : rest.indexOf '\n' < rest.length) :
    Scan body rest =
      if MaxScanTokenSize ≤ byteLen (rest.take (rest.indexOf '\n')) then
        .stop (some .ErrTooLong)
      else .token (dropCR (rest.take (rest.indexOf '\n'))) (rest.drop (rest.indexOf '\n' + 1)) := by
  have h1 : min (rest.indexOf '\n' + 1) rest.length = rest.indexOf '\n' + 1 := by omega
  have h2 := indexOf_take_succ '\n' rest h
  have h3 : min (rest.indexOf '\n') (rest.indexOf '\n' + 1) = rest.indexOf '\n' := by omega
  simp only [Scan, ScanLines, h, if_true, List.length_take, h1, h2, List.take_take, h3]
  simp

/-- What `Scan` does when no newline lies ahead. -/
theorem Scan_of_no_newline (body : Body) (rest : List Char)
    (h : ¬ rest.indexOf '\n' < rest.length) :
    Scan body rest =
      if MaxScanTokenSize < byteLen rest
          ∨ (MaxScanTokenSize = byteLen rest ∧ body.endWithData = false) then
        .stop (some .ErrTooLong)
      else if rest = [] then .stop (body.readErr.map .readError)
      else .token (dropCR rest) [] := by
  simp only [Scan, ScanLines, h, if_false]
  split
  · rfl
  · cases rest with
    | nil => simp
    | cons c t => simp

theorem Scan_remaining (body : Body) (rest : List Char) :
    (Scan body rest).remaining ≤ rest.length := by
  by_cases h : rest.indexOf '\n' < rest.length
  · rw [Scan_of_newline body rest h]
    split
    · simp [ScanStep.remaining]
    · simp only [ScanStep.remaining, List.length_drop]; omega
  · rw [Scan_of_no_newline body rest h]
    split
    · simp [ScanStep.remaining]
    · split
      · simp [ScanStep.remaining]
      · rename_i hne
        have : 0 < rest.length := List.length_pos.mpr hne
        simp only [ScanStep.remaining, List.length_nil]; omega

/-- The loop `for scanner.Scan() { list = append(list, scanner.Text()) }`
followed by `scanner.Err()`: the lines collected and the error.  `fuel`
bounds the number of calls of `Scan`; the result is `none` when the bound is
reached before the scanner stops. -/
def scanLoop (body : Body) : Nat → List Char → List String →
    Option (List String × Option ScanError)
  | 0, _, _ => none
  | fuel + 1, rest, list =>
    match Scan body rest with
    | .token text rest1 => scanLoop body fuel rest1 (list ++ [String.mk text])
    | .stop err => some (list, err)

/-- The loop ends: every call of `Scan` that yields a line consumes at least
one character, so one call more than there are characters is enough. -/
theorem scanLoop_isSome (body : Body) (fuel : Nat) (rest : List Char) (list : List String)
    (h : rest.length < fuel) : (scanLoop body fuel rest list).isSome = true := by
  induction fuel generalizing rest list with
  | zero => omega
  | succ n ih =>
    have h1 := Scan_remaining body rest
    unfold scanLoop
    split
    · rename_i text rest1 heq
      rw [heq] at h1
      simp only [ScanStep.remaining] at h1
      exact ih rest1 _ (by omega)
    · rfl

/-- The scanning part of `fetchIPList`, lines 53 to 59: `list` starts empty
and the scanner starts at the beginning of the body. -/
def scanBody (body : Body) : List String × Option ScanError :=
  (scanLoop body (body.data.data.length + 1) body.data.data []).get
    (scanLoop_isSome body _ _ _ (Nat.lt_succ_self _))

/-! ## The fetcher -/

/-- The response `http.Get` returns. -/
structure Response where
  StatusCode : Int
  Status : String
  Body : Body
deriving DecidableEq, Repr

/-- The two results of `http.Get(url)`: an error, or a response. -/
inductive GetResult
  | error (err : String)
  | response (resp : Response)
deriving DecidableEq, Repr

/-- The constant `http.StatusOK`. -/
def StatusOK : Int := 200

/-- What the goroutines share: the two lists behind the pointers `ipv4List`
and `ipv6List`, and the lines printed to standard output. -/
structure State where
  ipv4List : List String
  ipv6List : List String
  stdout : List String
deriving DecidableEq, Repr

/-- The text of an error as `fmt.Println` prints it. -/
def ScanError.Error : ScanError → String
  | .ErrTooLong => "bufio.Scanner: token too long"
  | .readError msg => msg

/-- The function `fetchIPList`, run for the source `url` when `http.Get(url)`
gives `get`, as a change of the shared state.  The function does one thing
to the shared state: it prints one diagnostic, or it appends `list` to one
list between `mu.Lock()` and `mu.Unlock()`. -/
def fetchIPList (url : String) (get : GetResult) (st : State) : State :=
  match get with
  | .error err =>
    { st with stdout := st.stdout ++ ["Failed to fetch: " ++ url ++ " Error: " ++ err] }
  | .response resp =>
    if resp.StatusCode ≠ StatusOK then
      { st with stdout := st.stdout ++ ["Failed to fetch: " ++ url ++ " Status: " ++ resp.Status] }
    else
      match scanBody resp.Body with
      | (_, some err) =>
        { st with stdout :=
            st.stdout ++ ["Error reading response from: " ++ url ++ " Error: " ++ err.Error] }
      | (list, none) =>
        if Contains url "v4" = true then
          { st with ipv4List := st.ipv4List ++ list }
        else
          { st with ipv6List := st.ipv6List ++ list }

/-! ## The writer -/

/-- The method `bufio.Writer.WriteString`: the writer holds every byte handed to it so
far (those still buffered and those already passed on to the file). -/
def WriteString (writer : String) (s : String) : String :=
  writer ++ s

/-- The body of `writeFile` after `os.Create` has succeeded: the calls of
`WriteString` in program order.  `urls` and `custom` are the values of the
package variables `IP_URLS` and `CUSTOM_ALLOW_LIST`, `now` is
`time.Now().String()`. -/
def writeFileText (urls custom : List String) (now : String)
    (ipv4List ipv6List : List String) : String :=
  let writer := ""
  let writer := WriteString writer
    ("# This file was automatically generated on: " ++ now ++ "\n")
  let writer := WriteString writer
    "# This file was automatically generated from the following sources:\n"
  let writer := urls.foldl (fun w url => WriteString w ("# " ++ url ++ "\n")) writer
  let writer := WriteString writer "\n# User defined list\n"
  let writer := custom.foldl (fun w ip => WriteString w ("allow " ++ ip ++ ";\n")) writer
  let writer := WriteString writer "\n# IPv4\n"
  let writer := ipv4List.foldl (fun w ip => WriteString w ("allow " ++ ip ++ ";\n")) writer
  let writer := WriteString writer "\n# IPv6\n"
  let writer := ipv6List.foldl (fun w ip => WriteString w ("allow " ++ ip ++ ";\n")) writer
  let writer := WriteString writer "\n# Deny all remaining ips\n"
  let writer := WriteString writer "deny all;"
  writer

/-- The function `writeFile`.  `create` is `os.Create`, giving for a path
its error (`none` when the file could be created).  `write` is the file as
the buffered writer meets it: for the path of the created file and the text
sent through the writer it gives the error `writer.Flush()` returns, which
is the error of the first write to the file that fails (the writer keeps it
and writes nothing after it), `none` when every write succeeds.  The result
is the error the function returns, or, when it returns `nil`, the text the
file then holds. -/
def writeFile (urls custom : List String) (create : String → Option String)
    (write : String → String → Option String) (now : String)
    (outputDir fileName : String) (ipv4List ipv6List : List String) : Except String String :=
  let filePath := outputDir ++ fileName
  match create filePath with
  | some err => Except.error err
  | none =>
    let text := writeFileText urls custom now ipv4List ipv6List
    match write filePath text with
    | some err => Except.error err
    | none => Except.ok text

/-! ## The coordinator -/

/-- The function `getOutputDir`, for the value `GOOS` of `runtime.GOOS`. -/
def getOutputDir (GOOS : String) : Except String String :=
  if GOOS = "linux" then Except.ok "/etc/nginx/conf/"
  else if GOOS = "windows" then Except.ok "C:/nginx/conf/"
  else Except.error "unsupported platform"

/-- The surroundings of one run of `main`. -/
structure Env where
  GOOS : String
  dirNotExist : String → Bool
  mkdirAll : String → Option String
  create : String → Option String
  write : String → String → Option String
  now : String

/-- What one run of `main` leaves behind: the lines printed, and the text of
the output file when `writeFile` returned no error (`none` when the run
ended before `writeFile`, or `writeFile` returned an error and the file is
absent or incomplete). -/
structure Run where
  stdout : List String
  file : Option String
deriving DecidableEq, Repr

/-- Lines 123 to 132 of `main`: both lists start empty, one goroutine runs
`fetchIPList` per source, and `wg.Wait()` returns when all have ended.
`completed` lists the sources, each with the result of its `http.Get`, in
the order in which the goroutines did their one step on the shared state. -/
def collect (completed : List (String × GetResult)) : State :=
  completed.foldl (fun st src => fetchIPList src.1 src.2 st) ⟨[], [], []⟩

/-- The function `main`.  `urls` and `custom` are the values of `IP_URLS`
and `CUSTOM_ALLOW_LIST`; `completed` is as in `collect`, a reordering of the
sources `urls` paired with their responses. -/
def main (urls custom : List String) (env : Env) (completed : List (String × GetResult)) : Run :=
  match getOutputDir env.GOOS with
  | .error err => ⟨["Error: " ++ err], none⟩
  | .ok outputDir =>
    match (if env.dirNotExist outputDir = true then env.mkdirAll outputDir else none) with
    | some err => ⟨["Failed to create directory: " ++ err], none⟩
    | none =>
      let st := collect completed
      match writeFile urls custom env.create env.write env.now outputDir outputFileName
          st.ipv4List st.ipv6List with
      | .error err => ⟨st.stdout ++ ["Failed to write file: " ++ err], none⟩
      | .ok text => ⟨st.stdout ++ ["File written successfully!"], some text⟩

/-! ## The words of the specification -/

/-- The pieces of a text split on the newline character, a single trailing
empty piece dropped. -/
def specPieces (data : List Char) : List (List Char) :=
  let pieces := data.splitOn '\n'
  if pieces.getLast? = some [] then pieces.dropLast else pieces

/-- The lines of a body as the specification has them: "split into lines
using newline as the delimiter (trailing empty line from a final newline is
not treated as a data line)". -/
def specLines (body : String) : List String :=
  (specPieces body.data).map String.mk

/-- A line without one terminal carriage return. -/
def withoutCR (line : String) : String :=
  String.mk (dropCR line.data)

/-- A fetch fails: a transport error, a status other than 200, or an error
while the body is read (the reader ends with an error, or the scanner
reports one). -/
def fetchFails : GetResult → Prop
  | .error _ => True
  | .response resp =>
    resp.StatusCode ≠ StatusOK ∨ resp.Body.readErr ≠ none ∨ (scanBody resp.Body).2 ≠ none

/-- The batch of a source: the lines of its body when its fetch succeeds,
nothing when it fails. -/
def batchOf : GetResult → List String
  | .error _ => []
  | .response resp =>
    if resp.StatusCode = StatusOK ∧ (scanBody resp.Body).2 = none then
      (scanBody resp.Body).1
    else []

/-- The batches of the sources whose URL has the marker (`marked = true`) or
lacks it (`marked = false`), put end to end in the order of completion. -/
def familyBlocks (marked : Bool) (completed : List (String × GetResult)) : List String :=
  ((completed.filter fun src => Contains src.1 "v4" == marked).map
    fun src => batchOf src.2).flatten

/-- The surroundings let `main` reach the fetches, with `dir` as output
directory: the platform is supported and the directory is there or can be
made. -/
def Env.reachesFetches (env : Env) (dir : String) : Prop :=
  getOutputDir env.GOOS = Except.ok dir
    ∧ (env.dirNotExist dir = true → env.mkdirAll dir = none)

/-! ## Facts about the scanner -/

theorem splitOn_of_not_mem (l : List Char) (h : '\n' ∉ l) : l.splitOn '\n' = [l] := by
  induction l with
  | nil => rfl
  | cons c t ih =>
    have hc : c ≠ '\n' := fun e => h (by simp [e])
    have ht : '\n' ∉ t := fun e => h (by simp [e])
    have ih1 := ih ht
    simp only [List.splitOn] at ih1 ⊢
    rw [List.splitOnP_cons, ih1]
    simp [hc]

theorem splitOn_of_mem (l : List Char) (h : l.indexOf '\n' < l.length) :
    l.splitOn '\n' =
      l.take (l.indexOf '\n') :: (l.drop (l.indexOf '\n' + 1)).splitOn '\n' := by
  induction l with
  | nil => simp at h
  | cons c t ih =>
    by_cases hc : c = '\n'
    · subst hc
      simp [List.splitOn, List.splitOnP_cons, List.indexOf_cons]
    · have hb : (c == '\n') = false := by simpa using hc
      simp only [List.indexOf_cons, hb, cond_false, List.length_cons] at h ⊢
      have ih1 := ih (by omega)
      simp only [List.splitOn] at ih1 ⊢
      rw [List.splitOnP_cons, ih1]
      simp [hc]

theorem specPieces_nil : specPieces [] = [] := by decide

theorem specPieces_of_not_mem (l : List Char) (h : '\n' ∉ l) (hne : l ≠ []) :
    specPieces l = [l] := by
  simp [specPieces, splitOn_of_not_mem l h, hne]

theorem specPieces_of_mem (l : List Char) (h : l.indexOf '\n' < l.length) :
    specPieces l = l.take (l.indexOf '\n') :: specPieces (l.drop (l.indexOf '\n' + 1)) := by
  have hne : (l.drop (l.indexOf '\n' + 1)).splitOn '\n' ≠ [] := List.splitOnP_ne_nil _ _
  simp only [specPieces, splitOn_of_mem l h]
  generalize (l.drop (l.indexOf '\n' + 1)).splitOn '\n' = ps at hne
  cases ps with
  | nil => exact absurd rfl hne
  | cons q qs =>
    simp only [List.getLast?_cons_cons, List.dropLast_cons₂]
    split <;> rfl

theorem maxScanTokenSize_pos_cond (b : Bool) :
    ¬ (MaxScanTokenSize < byteLen [] ∨ (MaxScanTokenSize = byteLen [] ∧ b = false)) := by
  simp [MaxScanTokenSize, byteLen]

/-- When the scanner reports no error, the lines collected are the pieces of
the text between newlines, each without its terminal carriage return. -/
theorem scanLoop_ok (body : Body) (fuel : Nat) (rest : List Char) (list out : List String)
    (h : scanLoop body fuel rest list = some (out, none)) :
    out = list ++ (specPieces rest).map fun p => String.mk (dropCR p) := by
  induction fuel generalizing rest list with
  | zero => simp [scanLoop] at h
  | succ n ih =>
    unfold scanLoop at h
    by_cases hi : rest.indexOf '\n' < rest.length
    · rw [Scan_of_newline body rest hi] at h
      by_cases hlen : MaxScanTokenSize ≤ byteLen (rest.take (rest.indexOf '\n'))
      · simp [hlen] at h
      · simp only [hlen, if_false] at h
        rw [ih _ _ h, specPieces_of_mem rest hi]
        simp
    · rw [Scan_of_no_newline body rest hi] at h
      by_cases hlong : MaxScanTokenSize < byteLen rest
          ∨ (MaxScanTokenSize = byteLen rest ∧ body.endWithData = false)
      · simp [hlong] at h
      · by_cases hnil : rest = []
        · subst hnil
          simp only [hlong, if_false, if_true] at h
          simp only [Option.some.injEq, Prod.mk.injEq] at h
          simp [specPieces_nil, h.1]
        · simp only [hlong, hnil, if_false] at h
          have hmem : '\n' ∉ rest := by
            intro hm
            exact hi (List.indexOf_lt_length.mpr hm)
          rw [specPieces_of_not_mem rest hmem hnil]
          cases n with
          | zero => simp [scanLoop] at h
          | succ m =>
            unfold scanLoop at h
            rw [Scan_of_no_newline body [] (by simp)] at h
            simp only [maxScanTokenSize_pos_cond, if_false, if_true] at h
            simp only [Option.some.injEq, Prod.mk.injEq] at h
            simp [h.1]

/-- When the reader ends with an error, the scanner reports an error, however
many lines it has collected before. -/
theorem scanLoop_readErr (body : Body) (fuel : Nat) (rest : List Char) (list out : List String)
    (err : Option ScanError) (hr : body.readErr ≠ none)
    (h : scanLoop body fuel rest list = some (out, err)) : err ≠ none := by
  induction fuel generalizing rest list with
  | zero => simp [scanLoop] at h
  | succ n ih =>
    unfold scanLoop at h
    split at h
    · exact ih _ _ h
    · rename_i e heq
      simp only [Option.some.injEq, Prod.mk.injEq] at h
      rw [← h.2]
      by_cases hi : rest.indexOf '\n' < rest.length
      · rw [Scan_of_newline body rest hi] at heq
        split at heq
        · simp only [ScanStep.stop.injEq] at heq
          simp [← heq]
        · simp at heq
      · rw [Scan_of_no_newline body rest hi] at heq
        split at heq
        · simp only [ScanStep.stop.injEq] at heq
          simp [← heq]
        · split at heq
          · simp only [ScanStep.stop.injEq] at heq
            rw [← heq]
            cases hb : body.readErr with
            | none => exact absurd hb hr
            | some msg => simp
          · simp at heq

theorem scanLoop_scanBody (body : Body) :
    scanLoop body (body.data.data.length + 1) body.data.data [] = some (scanBody body) := by
  simp [scanBody]

/-- The lines of a body that is read without error. -/
theorem scanBody_ok (body : Body) (h : (scanBody body).2 = none) :
    (scanBody body).1 = (specLines body.data).map withoutCR := by
  have h1 := scanLoop_scanBody body
  have h2 : scanBody body = ((scanBody body).1, none) := by rw [← h]
  rw [h2] at h1
  have h3 := scanLoop_ok body _ _ _ _ h1
  rw [h3]
  simp [specLines, withoutCR, Function.comp_def]

/-- A reader that ends with an error makes the scan fail. -/
theorem scanBody_readErr (body : Body) (hr : body.readErr ≠ none) :
    (scanBody body).2 ≠ none :=
  scanLoop_readErr body _ _ _ _ _ hr (scanLoop_scanBody body)

/-- The scan of an empty body: no line, and the error of the reader. -/
theorem scanBody_empty (body : Body) (h : body.data = "") :
    scanBody body = ([], body.readErr.map .readError) := by
  have h1 := scanLoop_scanBody body
  have hd : body.data.data = [] := by rw [h]
  rw [hd] at h1
  simp only [List.length_nil, Nat.zero_add] at h1
  unfold scanLoop at h1
  rw [Scan_of_no_newline body [] (by simp)] at h1
  simp only [maxScanTokenSize_pos_cond, if_false, if_true, Option.some.injEq] at h1
  exact h1.symm

theorem byteLen_append (a b : List Char) : byteLen (a ++ b) = byteLen a + byteLen b := by
  simp [byteLen]

theorem byteLen_take_le (n : Nat) (l : List Char) : byteLen (l.take n) ≤ byteLen l := by
  have h := byteLen_append (l.take n) (l.drop n)
  rw [List.take_append_drop] at h
  omega

theorem byteLen_drop_le (n : Nat) (l : List Char) : byteLen (l.drop n) ≤ byteLen l := by
  have h := byteLen_append (l.take n) (l.drop n)
  rw [List.take_append_drop] at h
  omega

/-- A text shorter than the scanner's buffer, from a reader that ends with
`io.EOF`, is scanned without error. -/
theorem scanLoop_short (body : Body) (fuel : Nat) (rest : List Char) (list out : List String)
    (err : Option ScanError) (hread : body.readErr = none)
    (hshort : byteLen rest < MaxScanTokenSize)
    (h : scanLoop body fuel rest list = some (out, err)) : err = none := by
  induction fuel generalizing rest list with
  | zero => simp [scanLoop] at h
  | succ n ih =>
    unfold scanLoop at h
    by_cases hi : rest.indexOf '\n' < rest.length
    · rw [Scan_of_newline body rest hi] at h
      have h1 := byteLen_take_le (rest.indexOf '\n') rest
      have h2 : ¬ MaxScanTokenSize ≤ byteLen (rest.take (rest.indexOf '\n')) := by omega
      simp only [h2, if_false] at h
      exact ih _ _ (Nat.lt_of_le_of_lt (byteLen_drop_le _ rest) hshort) h
    · rw [Scan_of_no_newline body rest hi] at h
      have h2 : ¬ (MaxScanTokenSize < byteLen rest
          ∨ (MaxScanTokenSize = byteLen rest ∧ body.endWithData = false)) := by omega
      by_cases hnil : rest = []
      · subst hnil
        simp only [maxScanTokenSize_pos_cond, if_false, if_true, hread, Option.map_none',
          Option.some.injEq, Prod.mk.injEq] at h
        exact h.2.symm
      · simp only [h2, hnil, if_false, List.drop_length] at h
        exact ih [] _ (by simp [byteLen, MaxScanTokenSize]) h

/-- Every body shorter than 64 KiB whose reader ends with `io.EOF` is read
without error. -/
theorem scanBody_short (body : Body) (hread : body.readErr = none)
    (hshort : byteLen body.data.data < MaxScanTokenSize) : (scanBody body).2 = none :=
  scanLoop_short body _ _ _ (scanBody body).1 (scanBody body).2 hread hshort
    (scanLoop_scanBody body)

/-- A first line of 64 KiB or more makes the scan fail before any line is
collected. -/
theorem scanBody_first_line_too_long (body : Body) (line tail : List Char)
    (hdata : body.data.data = line ++ '\n' :: tail) (hline : '\n' ∉ line)
    (hlong : MaxScanTokenSize ≤ byteLen line) :
    scanBody body = ([], some .ErrTooLong) := by
  have h1 := scanLoop_scanBody body
  have hidx : body.data.data.indexOf '\n' = line.length := by
    rw [hdata, List.indexOf_append_of_not_mem hline]
    simp
  have hlt : body.data.data.indexOf '\n' < body.data.data.length := by
    rw [hidx, hdata]
    simp
  unfold scanLoop at h1
  rw [Scan_of_newline body _ hlt, hidx] at h1
  have htake : (body.data.data).take line.length = line := by
    rw [hdata]
    simp
  rw [htake] at h1
  simp only [hlong, if_true, Option.some.injEq] at h1
  exact h1.symm

/-! ## Facts about `strings.Contains` -/

theorem HasPrefix_iff (s p : List Char) : HasPrefix s p = true ↔ p <+: s := by
  induction s generalizing p with
  | nil => cases p <;> simp [HasPrefix]
  | cons c t ih =>
    cases p with
    | nil => simp [HasPrefix]
    | cons d q =>
      simp only [HasPrefix, Bool.and_eq_true, beq_iff_eq, ih, List.cons_prefix_cons]
      exact and_congr_left fun _ => eq_comm

theorem ContainsAt_iff (substr s : List Char) : ContainsAt substr s = true ↔ substr <:+: s := by
  induction s with
  | nil => simp [ContainsAt, HasPrefix_iff]
  | cons c t ih =>
    simp only [ContainsAt, Bool.or_eq_true, HasPrefix_iff, ih, List.infix_cons_iff]

/-- The URL test of `fetchIPList` holds exactly for the strings with `substr`
somewhere inside. -/
theorem Contains_iff (s substr : String) :
    Contains s substr = true ↔ ∃ pre post : String, s = pre ++ substr ++ post := by
  rw [Contains, ContainsAt_iff]
  constructor
  · rintro ⟨a, b, h⟩
    exact ⟨String.mk a, String.mk b, String.ext (by simp [String.data_append, h])⟩
  · rintro ⟨pre, post, h⟩
    exact ⟨pre.data, post.data, by simp [h, String.data_append]⟩

/-! ## Facts about the fetcher -/

/-- A fetch that fails in the words of the specification has no batch. -/
theorem batchOf_of_fails (get : GetResult) (h : fetchFails get) : batchOf get = [] := by
  cases get with
  | error err => rfl
  | response resp =>
    rcases h with h | h | h
    · simp [batchOf, h]
    · have := scanBody_readErr resp.Body h
      simp [batchOf, this]
    · simp [batchOf, h]

/-- What a successful fetch does to the shared state. -/
theorem fetchIPList_of_ok (url : String) (resp : Response) (st : State)
    (h200 : resp.StatusCode = StatusOK) (hok : (scanBody resp.Body).2 = none) :
    fetchIPList url (.response resp) st =
      if Contains url "v4" = true then
        { st with ipv4List := st.ipv4List ++ (scanBody resp.Body).1 }
      else { st with ipv6List := st.ipv6List ++ (scanBody resp.Body).1 } := by
  cases hb : scanBody resp.Body with
  | mk list err =>
    rw [hb] at hok
    simp only at hok
    subst hok
    simp [fetchIPList, h200, hb]

/-- The one step of `fetchIPList` on the two lists: the batch goes to the end
of the list the URL selects. -/
theorem fetchIPList_lists (url : String) (get : GetResult) (st : State) :
    (fetchIPList url get st).ipv4List =
        st.ipv4List ++ (if Contains url "v4" = true then batchOf get else [])
      ∧ (fetchIPList url get st).ipv6List =
        st.ipv6List ++ (if Contains url "v4" = true then [] else batchOf get) := by
  cases get with
  | error err => simp [fetchIPList, batchOf]
  | response resp =>
    by_cases hs : resp.StatusCode = StatusOK
    · cases hb : scanBody resp.Body with
      | mk list err =>
        cases err with
        | none =>
          by_cases hc : Contains url "v4" = true
          · simp [fetchIPList, batchOf, hs, hb, hc]
          · simp [fetchIPList, batchOf, hs, hb, hc]
        | some e => simp [fetchIPList, batchOf, hs, hb]
    · simp [fetchIPList, batchOf, hs]

theorem foldl_fetchIPList_lists (completed : List (String × GetResult)) (st : State) :
    (completed.foldl (fun st src => fetchIPList src.1 src.2 st) st).ipv4List =
        st.ipv4List ++ familyBlocks true completed
      ∧ (completed.foldl (fun st src => fetchIPList src.1 src.2 st) st).ipv6List =
        st.ipv6List ++ familyBlocks false completed := by
  induction completed generalizing st with
  | nil => simp [familyBlocks]
  | cons src rest ih =>
    rw [List.foldl_cons]
    obtain ⟨h4, h6⟩ := fetchIPList_lists src.1 src.2 st
    rw [(ih _).1, (ih _).2, h4, h6]
    by_cases hc : Contains src.1 "v4" = true
    · simp [familyBlocks, List.filter_cons, hc]
    · simp [familyBlocks, List.filter_cons, hc]

/-- The two lists `main` hands to `writeFile`. -/
theorem collect_lists (completed : List (String × GetResult)) :
    (collect completed).ipv4List = familyBlocks true completed
      ∧ (collect completed).ipv6List = familyBlocks false completed := by
  have h := foldl_fetchIPList_lists completed ⟨[], [], []⟩
  simpa [collect] using h

/-- A source's batch sits in the list of its family as one block. -/
theorem batchOf_infix_familyBlocks (marked : Bool) (completed : List (String × GetResult))
    (src : String × GetResult) (hmem : src ∈ completed)
    (hfam : (Contains src.1 "v4" == marked) = true) :
    batchOf src.2 <:+: familyBlocks marked completed := by
  induction completed with
  | nil => simp at hmem
  | cons hd tl ih =>
    rcases List.mem_cons.mp hmem with h | h
    · subst h
      refine ⟨[], familyBlocks marked tl, ?_⟩
      simp [familyBlocks, List.filter_cons, hfam]
    · obtain ⟨a, b, hab⟩ := ih h
      by_cases hc : (Contains hd.1 "v4" == marked) = true
      · refine ⟨batchOf hd.2 ++ a, b, ?_⟩
        simp only [familyBlocks] at hab
        simp [familyBlocks, List.filter_cons, hc, ← hab]
      · refine ⟨a, b, ?_⟩
        simp only [familyBlocks] at hab
        simp [familyBlocks, List.filter_cons, hc, ← hab]

/-- Reordering the sources reorders the entries of a family's list. -/
theorem familyBlocks_perm (marked : Bool) (c1 c2 : List (String × GetResult))
    (h : c1.Perm c2) : (familyBlocks marked c1).Perm (familyBlocks marked c2) :=
  List.Perm.flatten (List.Perm.map _ (List.Perm.filter _ h))

/-! ## Facts about the writer and the coordinator -/

theorem join_cons (s : String) (l : List String) :
    String.join (s :: l) = s ++ String.join l := by
  apply String.ext
  simp [String.join_eq, String.data_append]

/-- A loop of `WriteString` calls appends the joined pieces. -/
theorem foldl_WriteString (f : String → String) (l : List String) (w : String) :
    l.foldl (fun w x => WriteString w (f x)) w = w ++ String.join (l.map f) := by
  induction l generalizing w with
  | nil => simp [String.join]
  | cons x xs ih =>
    rw [List.foldl_cons, ih, List.map_cons, join_cons]
    simp only [WriteString, String.append_assoc]

/-- The text of `writeFile` in closed form. -/
theorem writeFileText_eq (urls custom : List String) (now : String)
    (ipv4List ipv6List : List String) :
    writeFileText urls custom now ipv4List ipv6List =
      "# This file was automatically generated on: " ++ now ++ "\n"
      ++ "# This file was automatically generated from the following sources:\n"
      ++ String.join (urls.map fun url => "# " ++ url ++ "\n")
      ++ "\n# User defined list\n" ++ String.join (custom.map fun ip => "allow " ++ ip ++ ";\n")
      ++ "\n# IPv4\n" ++ String.join (ipv4List.map fun ip => "allow " ++ ip ++ ";\n")
      ++ "\n# IPv6\n" ++ String.join (ipv6List.map fun ip => "allow " ++ ip ++ ";\n")
      ++ "\n# Deny all remaining ips\n" ++ "deny all;" := by
  unfold writeFileText
  simp only [foldl_WriteString]
  simp only [WriteString, String.empty_append, String.append_assoc]

/-- Once `main` has reached the fetches, what it leaves behind is decided by
`writeFile`, called with the two lists as the fetches left them. -/
theorem main_of_reachesFetches (urls custom : List String) (env : Env) (dir : String)
    (completed : List (String × GetResult)) (h : env.reachesFetches dir) :
    main urls custom env completed =
      match writeFile urls custom env.create env.write env.now dir outputFileName
          (collect completed).ipv4List (collect completed).ipv6List with
      | .error err => ⟨(collect completed).stdout ++ ["Failed to write file: " ++ err], none⟩
      | .ok text => ⟨(collect completed).stdout ++ ["File written successfully!"], some text⟩ := by
  obtain ⟨hdir, hmk⟩ := h
  have hmk1 : (if env.dirNotExist dir = true then env.mkdirAll dir else none) = none := by
    by_cases hd : env.dirNotExist dir = true
    · simp [hd, hmk hd]
    · simp [hd]
  simp only [main, hdir, hmk1]

/-- A file that `main` has written holds the text of `writeFile` for the two
lists as the fetches left them. -/
theorem main_file_eq (urls custom : List String) (env : Env)
    (completed : List (String × GetResult)) (text : String)
    (h : (main urls custom env completed).file = some text) :
    text = writeFileText urls custom env.now
      (collect completed).ipv4List (collect completed).ipv6List := by
  unfold main at h
  split at h
  · simp at h
  · split at h
    · simp at h
    · simp only [writeFile] at h
      split at h
      · simp at h
      · rename_i text1 heq
        simp only [Option.some.injEq] at h
        subst h
        split at heq
        · simp at heq
        · split at heq
          · simp at heq
          · simp only [Except.ok.injEq] at heq
            exact heq.symm

/-! ## The claims -/

/-- C1, as the claim states it, fails: the file can be created (as `/dev/full`
can) and every write to it fails; `writeFile` then returns the error of the
write and the file does not hold the text. -/
theorem write_error_returned :
    (fun _ => none : String → Option String) ("/dev/" ++ "full") = none
      ∧ writeFile ["A", "B"] ["192.168.50.0/24"] (fun _ => none)
          (fun _ _ => some "write /dev/full: no space left on device") "T" "/dev/" "full"
          ["1.2.3.0/24", "5.6.7.0/24"] ["2001:db8::/32"]
        = Except.error "write /dev/full: no space left on device" :=
  ⟨rfl, rfl⟩

/-- C1, amended: when the target file can be created, the text `writeFile`
sends to the file is the timestamp line, the line announcing the sources,
one comment line per source URL in order, then the headings "User defined
list", "IPv4" and "IPv6", each followed by one `allow` directive per entry
of its list in order, then the heading of the deny rule and, last,
`deny all;`.  When every write to the file succeeds `writeFile` returns no
error and the file holds exactly this text; when a write fails `writeFile`
returns the error of that write. -/
theorem writeFile_text (t : String) (U C A B : List String)
    (create : String → Option String) (write : String → String → Option String)
    (outputDir fileName : String)
    (hcreate : create (outputDir ++ fileName) = none) :
    ∃ text : String,
      text = "# This file was automatically generated on: " ++ t ++ "\n"
        ++ "# This file was automatically generated from the following sources:\n"
        ++ String.join (U.map fun u => "# " ++ u ++ "\n")
        ++ "\n# User defined list\n" ++ String.join (C.map fun c => "allow " ++ c ++ ";\n")
        ++ "\n# IPv4\n" ++ String.join (A.map fun a => "allow " ++ a ++ ";\n")
        ++ "\n# IPv6\n" ++ String.join (B.map fun b => "allow " ++ b ++ ";\n")
        ++ "\n# Deny all remaining ips\n" ++ "deny all;"
      ∧ (write (outputDir ++ fileName) text = none →
          writeFile U C create write t outputDir fileName A B = Except.ok text)
      ∧ (∀ err, write (outputDir ++ fileName) text = some err →
          writeFile U C create write t outputDir fileName A B = Except.error err) := by
  refine ⟨_, rfl, fun hw => ?_, fun err hw => ?_⟩
  · rw [← writeFileText_eq] at hw ⊢
    simp only [writeFile, hcreate, hw]
  · rw [← writeFileText_eq] at hw
    simp only [writeFile, hcreate, hw]

/-- The scenario of the specification: two IPv4 ranges, one IPv6 range and
the custom list `192.168.50.0/24`, written to a file that takes every
write. -/
theorem writeFile_text_witness :
    (fun _ => none : String → Option String) ("/etc/nginx/conf/" ++ outputFileName) = none
      ∧ writeFile ["A", "B"] ["192.168.50.0/24"] (fun _ => none) (fun _ _ => none) "T"
          "/etc/nginx/conf/" outputFileName ["1.2.3.0/24", "5.6.7.0/24"] ["2001:db8::/32"]
        = Except.ok ("# This file was automatically generated on: T\n"
          ++ "# This file was automatically generated from the following sources:\n"
          ++ "# A\n# B\n"
          ++ "\n# User defined list\nallow 192.168.50.0/24;\n"
          ++ "\n# IPv4\nallow 1.2.3.0/24;\nallow 5.6.7.0/24;\n"
          ++ "\n# IPv6\nallow 2001:db8::/32;\n"
          ++ "\n# Deny all remaining ips\ndeny all;") :=
  ⟨rfl,
    match writeFile_text "T" ["A", "B"] ["192.168.50.0/24"] ["1.2.3.0/24", "5.6.7.0/24"]
      ["2001:db8::/32"] (fun _ => none) (fun _ _ => none) "/etc/nginx/conf/" outputFileName rfl with
    | ⟨_, htext, hok, _⟩ => (hok rfl).trans (congrArg Except.ok (htext.trans (by decide)))⟩

/-- C3: a fetch that fails (transport error, status other than 200, or an
error while the body is read, lines already scanned or not) leaves the IPv4
list and the IPv6 list as they were. -/
theorem fetchIPList_failed_unchanged (url : String) (get : GetResult) (st : State)
    (h : fetchFails get) :
    (fetchIPList url get st).ipv4List = st.ipv4List
      ∧ (fetchIPList url get st).ipv6List = st.ipv6List := by
  obtain ⟨h4, h6⟩ := fetchIPList_lists url get st
  rw [h4, h6, batchOf_of_fails get h]
  simp

/-- A body whose reader breaks after two lines have been scanned: both lines
are in `list`, neither reaches a bucket. -/
theorem fetchIPList_failed_unchanged_witness :
    fetchFails (.response ⟨200, "200 OK", ⟨"1.2.3.0/24\n5.6.7.0/24\n9.9", some "unexpected EOF", false⟩⟩)
      ∧ (scanBody ⟨"1.2.3.0/24\n5.6.7.0/24\n9.9", some "unexpected EOF", false⟩).1
          = ["1.2.3.0/24", "5.6.7.0/24", "9.9"]
      ∧ (fetchIPList "https://www.cloudflare.com/ips-v4"
            (.response ⟨200, "200 OK", ⟨"1.2.3.0/24\n5.6.7.0/24\n9.9", some "unexpected EOF", false⟩⟩)
            ⟨["10.0.0.0/8"], ["fd00::/8"], []⟩).ipv4List = ["10.0.0.0/8"]
      ∧ (fetchIPList "https://www.cloudflare.com/ips-v4"
            (.response ⟨200, "200 OK", ⟨"1.2.3.0/24\n5.6.7.0/24\n9.9", some "unexpected EOF", false⟩⟩)
            ⟨["10.0.0.0/8"], ["fd00::/8"], []⟩).ipv6List = ["fd00::/8"] :=
  have hf : fetchFails (.response ⟨200, "200 OK",
      ⟨"1.2.3.0/24\n5.6.7.0/24\n9.9", some "unexpected EOF", false⟩⟩) :=
    Or.inr (Or.inl (by decide))
  ⟨hf, by decide,
    (fetchIPList_failed_unchanged "https://www.cloudflare.com/ips-v4" _
      ⟨["10.0.0.0/8"], ["fd00::/8"], []⟩ hf).1,
    (fetchIPList_failed_unchanged "https://www.cloudflare.com/ips-v4" _
      ⟨["10.0.0.0/8"], ["fd00::/8"], []⟩ hf).2⟩

/-- C10: only status 200 is accepted: a response with any other status
code, whatever its body, adds nothing to either list. -/
theorem fetchIPList_status_not_200 (url : String) (resp : Response) (st : State)
    (h : resp.StatusCode ≠ StatusOK) :
    (fetchIPList url (.response resp) st).ipv4List = st.ipv4List
      ∧ (fetchIPList url (.response resp) st).ipv6List = st.ipv6List := by
  simp [fetchIPList, h]

/-- Status 206 with a body of two well-formed lines. -/
theorem fetchIPList_status_not_200_witness :
    (206 : Int) ≠ StatusOK
      ∧ (fetchIPList "https://www.cloudflare.com/ips-v4"
          (.response ⟨206, "206 Partial Content", ⟨"1.2.3.0/24\n5.6.7.0/24\n", none, true⟩⟩)
          ⟨[], [], []⟩).ipv4List = []
      ∧ (fetchIPList "https://www.cloudflare.com/ips-v4"
          (.response ⟨206, "206 Partial Content", ⟨"1.2.3.0/24\n5.6.7.0/24\n", none, true⟩⟩)
          ⟨[], [], []⟩).ipv6List = [] :=
  ⟨by decide,
    fetchIPList_status_not_200 "https://www.cloudflare.com/ips-v4"
      ⟨206, "206 Partial Content", ⟨"1.2.3.0/24\n5.6.7.0/24\n", none, true⟩⟩ ⟨[], [], []⟩
      (by decide)⟩

/-- C9: the URL alone decides the family.  The batch of a successful fetch
goes to the IPv4 list when the URL has "v4" somewhere inside, in these very
characters, and to the IPv6 list otherwise; of the four configured URLs the
two of Cloudflare and UptimeRobot with "v4" (or "IPv4") go to IPv4 and the
other two to IPv6. -/
theorem family_by_url (url : String) (resp : Response) (st : State)
    (h200 : resp.StatusCode = StatusOK) (hok : (scanBody resp.Body).2 = none) :
    ((∃ pre post : String, url = pre ++ "v4" ++ post) →
        fetchIPList url (.response resp) st =
          { st with ipv4List := st.ipv4List ++ (scanBody resp.Body).1 })
      ∧ ((¬ ∃ pre post : String, url = pre ++ "v4" ++ post) →
        fetchIPList url (.response resp) st =
          { st with ipv6List := st.ipv6List ++ (scanBody resp.Body).1 })
      ∧ fetchIPList "https://www.cloudflare.com/ips-v4" (.response resp) st =
          { st with ipv4List := st.ipv4List ++ (scanBody resp.Body).1 }
      ∧ fetchIPList "https://uptimerobot.com/inc/files/ips/IPv4.txt" (.response resp) st =
          { st with ipv4List := st.ipv4List ++ (scanBody resp.Body).1 }
      ∧ fetchIPList "https://www.cloudflare.com/ips-v6" (.response resp) st =
          { st with ipv6List := st.ipv6List ++ (scanBody resp.Body).1 }
      ∧ fetchIPList "https://uptimerobot.com/inc/files/ips/IPv6.txt" (.response resp) st =
          { st with ipv6List := st.ipv6List ++ (scanBody resp.Body).1 } := by
  have h1 : Contains "https://www.cloudflare.com/ips-v4" "v4" = true := by decide
  have h2 : Contains "https://uptimerobot.com/inc/files/ips/IPv4.txt" "v4" = true := by decide
  have h3 : ¬ Contains "https://www.cloudflare.com/ips-v6" "v4" = true := by decide
  have h4 : ¬ Contains "https://uptimerobot.com/inc/files/ips/IPv6.txt" "v4" = true := by decide
  refine ⟨fun h => ?_, fun h => ?_, ?_, ?_, ?_, ?_⟩
  · rw [fetchIPList_of_ok url resp st h200 hok, if_pos ((Contains_iff url "v4").mpr h)]
  · rw [fetchIPList_of_ok url resp st h200 hok,
      if_neg (fun hc => h ((Contains_iff url "v4").mp hc))]
  · rw [fetchIPList_of_ok _ resp st h200 hok, if_pos h1]
  · rw [fetchIPList_of_ok _ resp st h200 hok, if_pos h2]
  · rw [fetchIPList_of_ok _ resp st h200 hok, if_neg h3]
  · rw [fetchIPList_of_ok _ resp st h200 hok, if_neg h4]

/-- A URL with both markers goes to IPv4, one with the marker in capitals
only goes to IPv6. -/
theorem family_by_url_witness :
    (200 : Int) = StatusOK
      ∧ (scanBody ⟨"1.2.3.0/24\n", none, false⟩).2 = none
      ∧ fetchIPList "https://example.com/ips-v6-v4" (.response ⟨200, "200 OK", ⟨"1.2.3.0/24\n", none, false⟩⟩)
          ⟨[], [], []⟩ = ⟨["1.2.3.0/24"], [], []⟩
      ∧ fetchIPList "https://example.com/ips-V4" (.response ⟨200, "200 OK", ⟨"1.2.3.0/24\n", none, false⟩⟩)
          ⟨[], [], []⟩ = ⟨[], ["1.2.3.0/24"], []⟩ :=
  ⟨by decide, by decide,
    ((family_by_url "https://example.com/ips-v6-v4" ⟨200, "200 OK", ⟨"1.2.3.0/24\n", none, false⟩⟩
      ⟨[], [], []⟩ (by decide) (by decide)).1
        ⟨"https://example.com/ips-v6-", "", by decide⟩).trans (by decide),
    ((family_by_url "https://example.com/ips-V4" ⟨200, "200 OK", ⟨"1.2.3.0/24\n", none, false⟩⟩
      ⟨[], [], []⟩ (by decide) (by decide)).2.1
        (fun h => absurd ((Contains_iff _ _).mpr h) (by decide))).trans (by decide)⟩

/-- C8: whatever the order of completion, each list is the batches of the
sources of its family put end to end in that order, so the batch of every
source lies in the list of its family as one uninterrupted block with its
lines in their own order; and a different order of completion only reorders
the blocks. -/
theorem bucket_is_concatenation (completed : List (String × GetResult)) :
    (collect completed).ipv4List =
        ((completed.filter fun src => Contains src.1 "v4" == true).map
          fun src => batchOf src.2).flatten
      ∧ (collect completed).ipv6List =
        ((completed.filter fun src => Contains src.1 "v4" == false).map
          fun src => batchOf src.2).flatten
      ∧ (∀ src ∈ completed, Contains src.1 "v4" = true →
          batchOf src.2 <:+: (collect completed).ipv4List)
      ∧ (∀ src ∈ completed, Contains src.1 "v4" = false →
          batchOf src.2 <:+: (collect completed).ipv6List)
      ∧ (∀ other : List (String × GetResult), other.Perm completed →
          (collect other).ipv4List.Perm (collect completed).ipv4List
            ∧ (collect other).ipv6List.Perm (collect completed).ipv6List) := by
  obtain ⟨c4, c6⟩ := collect_lists completed
  refine ⟨c4, c6, fun src hmem hfam => ?_, fun src hmem hfam => ?_, fun other hperm => ?_⟩
  · rw [c4]; exact batchOf_infix_familyBlocks true completed src hmem (by simp [hfam])
  · rw [c6]; exact batchOf_infix_familyBlocks false completed src hmem (by simp [hfam])
  · rw [c4, c6, (collect_lists other).1, (collect_lists other).2]
    exact ⟨familyBlocks_perm true _ _ hperm, familyBlocks_perm false _ _ hperm⟩

/-- Two IPv4 sources of two lines each, with an IPv6 source completing
between them. -/
theorem bucket_is_concatenation_witness :
    (collect [("https://uptimerobot.com/inc/files/ips/IPv4.txt",
          .response ⟨200, "200 OK", ⟨"3.3.3.3\n4.4.4.4\n", none, false⟩⟩),
        ("https://www.cloudflare.com/ips-v6",
          .response ⟨200, "200 OK", ⟨"2001:db8::/32\n", none, false⟩⟩),
        ("https://www.cloudflare.com/ips-v4",
          .response ⟨200, "200 OK", ⟨"1.1.1.0/24\n2.2.2.0/24", none, false⟩⟩)]).ipv4List
        = ["3.3.3.3", "4.4.4.4", "1.1.1.0/24", "2.2.2.0/24"]
      ∧ batchOf (.response ⟨200, "200 OK", ⟨"1.1.1.0/24\n2.2.2.0/24", none, false⟩⟩)
        <:+: (collect [("https://uptimerobot.com/inc/files/ips/IPv4.txt",
          .response ⟨200, "200 OK", ⟨"3.3.3.3\n4.4.4.4\n", none, false⟩⟩),
        ("https://www.cloudflare.com/ips-v6",
          .response ⟨200, "200 OK", ⟨"2001:db8::/32\n", none, false⟩⟩),
        ("https://www.cloudflare.com/ips-v4",
          .response ⟨200, "200 OK", ⟨"1.1.1.0/24\n2.2.2.0/24", none, false⟩⟩)]).ipv4List :=
  ⟨by decide,
    (bucket_is_concatenation
      [("https://uptimerobot.com/inc/files/ips/IPv4.txt",
          .response ⟨200, "200 OK", ⟨"3.3.3.3\n4.4.4.4\n", none, false⟩⟩),
        ("https://www.cloudflare.com/ips-v6",
          .response ⟨200, "200 OK", ⟨"2001:db8::/32\n", none, false⟩⟩),
        ("https://www.cloudflare.com/ips-v4",
          .response ⟨200, "200 OK", ⟨"1.1.1.0/24\n2.2.2.0/24", none, false⟩⟩)]).2.2.1
      ("https://www.cloudflare.com/ips-v4",
          .response ⟨200, "200 OK", ⟨"1.1.1.0/24\n2.2.2.0/24", none, false⟩⟩)
      (by decide) (by decide)⟩

/-- C2, as the claim states it, fails: with status 200 and a body read
without error whose lines end in a carriage return before the newline, the
batch appended is not the body split on newlines: the carriage returns are
gone. -/
theorem carriage_return_not_kept :
    (200 : Int) = StatusOK
      ∧ (scanBody ⟨"1.2.3.0/24\r\n5.6.7.0/24\r\n", none, false⟩).2 = none
      ∧ specLines "1.2.3.0/24\r\n5.6.7.0/24\r\n" = ["1.2.3.0/24\r", "5.6.7.0/24\r"]
      ∧ (fetchIPList "https://www.cloudflare.com/ips-v4"
          (.response ⟨200, "200 OK", ⟨"1.2.3.0/24\r\n5.6.7.0/24\r\n", none, false⟩⟩)
          ⟨[], [], []⟩).ipv4List = ["1.2.3.0/24", "5.6.7.0/24"]
      ∧ (fetchIPList "https://www.cloudflare.com/ips-v4"
          (.response ⟨200, "200 OK", ⟨"1.2.3.0/24\r\n5.6.7.0/24\r\n", none, false⟩⟩)
          ⟨[], [], []⟩).ipv4List ≠ [] ++ specLines "1.2.3.0/24\r\n5.6.7.0/24\r\n" := by
  decide

/-- C2, amended: for a fetch that succeeds (status 200, no error from the
scanner) the batch appended to the list of the source's family is the body
split on the newline character, a single trailing empty piece dropped, each
line without one terminal carriage return; a line that does not end in a
carriage return is appended character for character. -/
theorem batch_is_lines_without_CR (url : String) (resp : Response) (st : State)
    (h200 : resp.StatusCode = StatusOK) (hok : (scanBody resp.Body).2 = none) :
    fetchIPList url (.response resp) st =
        (if Contains url "v4" = true then
          { st with ipv4List := st.ipv4List ++ (specLines resp.Body.data).map withoutCR }
        else { st with ipv6List := st.ipv6List ++ (specLines resp.Body.data).map withoutCR })
      ∧ ∀ line ∈ specLines resp.Body.data,
          line.data.getLast? ≠ some '\r' → withoutCR line = line := by
  refine ⟨?_, fun line _ hlast => ?_⟩
  · rw [fetchIPList_of_ok url resp st h200 hok, scanBody_ok resp.Body hok]
  · have hne : ¬ (0 < line.data.length ∧ line.data.get? (line.data.length - 1) = some '\r') := by
      rintro ⟨_, hget⟩
      apply hlast
      rw [List.getLast?_eq_getElem?, ← hget, List.get?_eq_getElem?]
    simp only [withoutCR, dropCR, hne, if_false]

/-- A body of three lines, the second ending in a carriage return, the last
without its newline. -/
theorem batch_is_lines_without_CR_witness :
    (200 : Int) = StatusOK
      ∧ (scanBody ⟨"1.2.3.0/24\n5.6.7.0/24\r\n\n2001:db8::/32", none, false⟩).2 = none
      ∧ fetchIPList "https://www.cloudflare.com/ips-v4"
          (.response ⟨200, "200 OK", ⟨"1.2.3.0/24\n5.6.7.0/24\r\n\n2001:db8::/32", none, false⟩⟩)
          ⟨["10.0.0.0/8"], [], []⟩
        = ⟨["10.0.0.0/8", "1.2.3.0/24", "5.6.7.0/24", "", "2001:db8::/32"], [], []⟩ :=
  ⟨by decide, by decide,
    (batch_is_lines_without_CR "https://www.cloudflare.com/ips-v4"
      ⟨200, "200 OK", ⟨"1.2.3.0/24\n5.6.7.0/24\r\n\n2001:db8::/32", none, false⟩⟩
      ⟨["10.0.0.0/8"], [], []⟩ (by decide) (by decide)).1.trans (by decide)⟩


/-- C5, as the claim states it, fails: every source fails, the output file
can be created, and the writes to it fail; the run then ends with the
report of the write failure and the file does not hold the output. -/
theorem all_sources_fail_write_error :
    (∀ src ∈ [("https://www.cloudflare.com/ips-v4",
            GetResult.response ⟨500, "500 Internal Server Error", ⟨"oops\n", none, false⟩⟩),
          ("https://www.cloudflare.com/ips-v6", GetResult.error "dial tcp: i/o timeout"),
          ("https://uptimerobot.com/inc/files/ips/IPv4.txt",
            GetResult.response ⟨200, "200 OK", ⟨"3.3.3.3\n4.4", some "unexpected EOF", false⟩⟩),
          ("https://uptimerobot.com/inc/files/ips/IPv6.txt",
            GetResult.response ⟨404, "404 Not Found", ⟨"", none, false⟩⟩)],
        fetchFails src.2)
      ∧ (main IP_URLS CUSTOM_ALLOW_LIST
          ⟨"linux", fun _ => false, fun _ => none, fun _ => none,
            fun _ _ => some "no space left on device", "T"⟩
          [("https://www.cloudflare.com/ips-v4",
            GetResult.response ⟨500, "500 Internal Server Error", ⟨"oops\n", none, false⟩⟩),
          ("https://www.cloudflare.com/ips-v6", GetResult.error "dial tcp: i/o timeout"),
          ("https://uptimerobot.com/inc/files/ips/IPv4.txt",
            GetResult.response ⟨200, "200 OK", ⟨"3.3.3.3\n4.4", some "unexpected EOF", false⟩⟩),
          ("https://uptimerobot.com/inc/files/ips/IPv6.txt",
            GetResult.response ⟨404, "404 Not Found", ⟨"", none, false⟩⟩)]).file = none
      ∧ (main IP_URLS CUSTOM_ALLOW_LIST
          ⟨"linux", fun _ => false, fun _ => none, fun _ => none,
            fun _ _ => some "no space left on device", "T"⟩
          [("https://www.cloudflare.com/ips-v4",
            GetResult.response ⟨500, "500 Internal Server Error", ⟨"oops\n", none, false⟩⟩),
          ("https://www.cloudflare.com/ips-v6", GetResult.error "dial tcp: i/o timeout"),
          ("https://uptimerobot.com/inc/files/ips/IPv4.txt",
            GetResult.response ⟨200, "200 OK", ⟨"3.3.3.3\n4.4", some "unexpected EOF", false⟩⟩),
          ("https://uptimerobot.com/inc/files/ips/IPv6.txt",
            GetResult.response ⟨404, "404 Not Found", ⟨"", none, false⟩⟩)]).stdout.getLast?
        = some "Failed to write file: no space left on device" :=
  ⟨by
    intro src hmem
    simp only [List.mem_cons, List.mem_singleton, List.not_mem_nil, or_false] at hmem
    rcases hmem with rfl | rfl | rfl | rfl
    · exact Or.inl (by decide)
    · exact True.intro
    · exact Or.inr (Or.inl (by decide))
    · exact Or.inl (by decide),
    by decide, by decide⟩

/-- C5, amended: when every source fails, in a run that reaches the fetches
(supported platform, output directory there or made), both lists reach the
writer empty.  When the output file can be created and every write to it
succeeds, `main` writes it and reports success, and the file is the
timestamp line, the list of source URLs, the custom list with one `allow`
directive per entry, the headings "IPv4" and "IPv6" with no directive after
either, and the rule `deny all;`.  When the file cannot be created, or a
write to it fails, `main` reports that failure and leaves no complete
file. -/
theorem all_sources_fail (urls custom : List String) (env : Env) (dir : String)
    (completed : List (String × GetResult))
    (hall : ∀ src ∈ completed, fetchFails src.2) (hreach : env.reachesFetches dir) :
    ∃ text : String,
      text = "# This file was automatically generated on: " ++ env.now ++ "\n"
          ++ "# This file was automatically generated from the following sources:\n"
          ++ String.join (urls.map fun u => "# " ++ u ++ "\n")
          ++ "\n# User defined list\n"
          ++ String.join (custom.map fun c => "allow " ++ c ++ ";\n")
          ++ "\n# IPv4\n" ++ "\n# IPv6\n"
          ++ "\n# Deny all remaining ips\n" ++ "deny all;"
      ∧ (collect completed).ipv4List = [] ∧ (collect completed).ipv6List = []
      ∧ (env.create (dir ++ outputFileName) = none →
          env.write (dir ++ outputFileName) text = none →
          (main urls custom env completed).file = some text
            ∧ (main urls custom env completed).stdout.getLast?
              = some "File written successfully!")
      ∧ (∀ err, env.create (dir ++ outputFileName) = some err
            ∨ (env.create (dir ++ outputFileName) = none
              ∧ env.write (dir ++ outputFileName) text = some err) →
          (main urls custom env completed).file = none
            ∧ (main urls custom env completed).stdout.getLast?
              = some ("Failed to write file: " ++ err)) := by
  have hblocks : ∀ marked, familyBlocks marked completed = [] := by
    intro marked
    simp only [familyBlocks, List.flatten_eq_nil_iff, List.mem_map, List.mem_filter]
    rintro l ⟨src, ⟨hmem, _⟩, rfl⟩
    exact batchOf_of_fails src.2 (hall src hmem)
  obtain ⟨c4, c6⟩ := collect_lists completed
  rw [hblocks] at c4 c6
  have htext : writeFileText urls custom env.now [] [] =
      "# This file was automatically generated on: " ++ env.now ++ "\n"
          ++ "# This file was automatically generated from the following sources:\n"
          ++ String.join (urls.map fun u => "# " ++ u ++ "\n")
          ++ "\n# User defined list\n"
          ++ String.join (custom.map fun c => "allow " ++ c ++ ";\n")
          ++ "\n# IPv4\n" ++ "\n# IPv6\n"
          ++ "\n# Deny all remaining ips\n" ++ "deny all;" := by
    rw [writeFileText_eq]
    simp [String.join, String.append_assoc]
  have hmain := main_of_reachesFetches urls custom env dir completed hreach
  rw [c4, c6] at hmain
  refine ⟨_, rfl, c4, c6, fun hc hw => ?_, fun err herr => ?_⟩
  · rw [← htext] at hw ⊢
    rw [hmain]
    simp [writeFile, hc, hw]
  · rw [← htext] at herr
    rw [hmain]
    rcases herr with hc | ⟨hc, hw⟩
    · simp [writeFile, hc]
    · simp [writeFile, hc, hw]

/-- All four configured sources fail, each in its own way, and the file is
written. -/
theorem all_sources_fail_witness :
    (∀ src ∈ [("https://www.cloudflare.com/ips-v4",
            GetResult.response ⟨500, "500 Internal Server Error", ⟨"oops\n", none, false⟩⟩),
          ("https://www.cloudflare.com/ips-v6", GetResult.error "dial tcp: i/o timeout"),
          ("https://uptimerobot.com/inc/files/ips/IPv4.txt",
            GetResult.response ⟨200, "200 OK", ⟨"3.3.3.3\n4.4", some "unexpected EOF", false⟩⟩),
          ("https://uptimerobot.com/inc/files/ips/IPv6.txt",
            GetResult.response ⟨404, "404 Not Found", ⟨"", none, false⟩⟩)],
        fetchFails src.2)
      ∧ Env.reachesFetches
          ⟨"linux", fun _ => true, fun _ => none, fun _ => none, fun _ _ => none, "T"⟩
          "/etc/nginx/conf/"
      ∧ (main IP_URLS CUSTOM_ALLOW_LIST
          ⟨"linux", fun _ => true, fun _ => none, fun _ => none, fun _ _ => none, "T"⟩
          [("https://www.cloudflare.com/ips-v4",
            GetResult.response ⟨500, "500 Internal Server Error", ⟨"oops\n", none, false⟩⟩),
          ("https://www.cloudflare.com/ips-v6", GetResult.error "dial tcp: i/o timeout"),
          ("https://uptimerobot.com/inc/files/ips/IPv4.txt",
            GetResult.response ⟨200, "200 OK", ⟨"3.3.3.3\n4.4", some "unexpected EOF", false⟩⟩),
          ("https://uptimerobot.com/inc/files/ips/IPv6.txt",
            GetResult.response ⟨404, "404 Not Found", ⟨"", none, false⟩⟩)]).file
        = some ("# This file was automatically generated on: T\n"
          ++ "# This file was automatically generated from the following sources:\n"
          ++ "# https://www.cloudflare.com/ips-v4\n# https://www.cloudflare.com/ips-v6\n"
          ++ "# https://uptimerobot.com/inc/files/ips/IPv4.txt\n"
          ++ "# https://uptimerobot.com/inc/files/ips/IPv6.txt\n"
          ++ "\n# User defined list\nallow 192.168.50.0/24;\n"
          ++ "\n# IPv4\n\n# IPv6\n\n# Deny all remaining ips\ndeny all;") :=
  have hall : ∀ src ∈ [("https://www.cloudflare.com/ips-v4",
            GetResult.response ⟨500, "500 Internal Server Error", ⟨"oops\n", none, false⟩⟩),
          ("https://www.cloudflare.com/ips-v6", GetResult.error "dial tcp: i/o timeout"),
          ("https://uptimerobot.com/inc/files/ips/IPv4.txt",
            GetResult.response ⟨200, "200 OK", ⟨"3.3.3.3\n4.4", some "unexpected EOF", false⟩⟩),
          ("https://uptimerobot.com/inc/files/ips/IPv6.txt",
            GetResult.response ⟨404, "404 Not Found", ⟨"", none, false⟩⟩)],
        fetchFails src.2 := by
    intro src hmem
    simp only [List.mem_cons, List.mem_singleton, List.not_mem_nil, or_false] at hmem
    rcases hmem with rfl | rfl | rfl | rfl
    · exact Or.inl (by decide)
    · exact True.intro
    · exact Or.inr (Or.inl (by decide))
    · exact Or.inl (by decide)
  have hreach : Env.reachesFetches
      ⟨"linux", fun _ => true, fun _ => none, fun _ => none, fun _ _ => none, "T"⟩
      "/etc/nginx/conf/" := ⟨by simp [getOutputDir], fun _ => rfl⟩
  ⟨hall, hreach,
    match all_sources_fail IP_URLS CUSTOM_ALLOW_LIST _ "/etc/nginx/conf/" _ hall hreach with
    | ⟨_, htext, _, _, hok, _⟩ =>
      (hok rfl rfl).1.trans (congrArg some (htext.trans (by decide)))⟩


/-- C7, as the claim states it, fails: a response with status 200 whose body
is arbitrary words is not recognised as malformed; its line is appended to
the list of the source's family, and nothing is printed. -/
theorem malformed_body_is_appended :
    fetchIPList "https://www.cloudflare.com/ips-v6"
        (.response ⟨200, "200 OK", ⟨"hello world", none, false⟩⟩) ⟨[], [], []⟩
        = ⟨[], ["hello world"], []⟩
      ∧ (fetchIPList "https://www.cloudflare.com/ips-v6"
        (.response ⟨200, "200 OK", ⟨"hello world", none, false⟩⟩) ⟨[], [], []⟩).ipv6List ≠ [] := by
  decide

/-- C7, amended: for a response with status 200, an empty body whose reader
ends with `io.EOF` changes nothing: no line is added to either list and
nothing is printed.  A malformed body is not recognised: whenever the
scanner reports no error, nothing is printed and the lines of the body
(split on the newline character, a single trailing empty piece dropped, each
line without one terminal carriage return) are appended to the list of the
family of the source, whatever the text; and the scanner reports no error
for every body shorter than 64 KiB whose reader ends with `io.EOF`. -/
theorem empty_body_contributes_nothing (url : String) (resp : Response) (st : State)
    (h200 : resp.StatusCode = StatusOK) :
    (resp.Body.data = "" → resp.Body.readErr = none →
        fetchIPList url (.response resp) st = st)
      ∧ ((scanBody resp.Body).2 = none →
        (fetchIPList url (.response resp) st).stdout = st.stdout
          ∧ fetchIPList url (.response resp) st =
            if Contains url "v4" = true then
              { st with ipv4List := st.ipv4List ++ (specLines resp.Body.data).map withoutCR }
            else
              { st with ipv6List := st.ipv6List ++ (specLines resp.Body.data).map withoutCR })
      ∧ (resp.Body.readErr = none → byteLen resp.Body.data.data < MaxScanTokenSize →
        (scanBody resp.Body).2 = none) := by
  refine ⟨fun hdata hread => ?_, fun hok => ⟨?_, ?_⟩, fun hread hshort => ?_⟩
  · have hscan := scanBody_empty resp.Body hdata
    rw [hread] at hscan
    have hok : (scanBody resp.Body).2 = none := by rw [hscan]; rfl
    rw [fetchIPList_of_ok url resp st h200 hok, hscan]
    simp
  · rw [fetchIPList_of_ok url resp st h200 hok]
    split <;> rfl
  · rw [fetchIPList_of_ok url resp st h200 hok, scanBody_ok resp.Body hok]
  · exact scanBody_short resp.Body hread hshort

/-- An empty body with status 200, and a body of arbitrary words. -/
theorem empty_body_contributes_nothing_witness :
    (200 : Int) = StatusOK
      ∧ fetchIPList "https://www.cloudflare.com/ips-v4"
          (.response ⟨200, "200 OK", ⟨"", none, true⟩⟩) ⟨["10.0.0.0/8"], ["fd00::/8"], ["line"]⟩
        = ⟨["10.0.0.0/8"], ["fd00::/8"], ["line"]⟩
      ∧ fetchIPList "https://www.cloudflare.com/ips-v6"
          (.response ⟨200, "200 OK", ⟨"hello world\nnot an address\r\n", none, false⟩⟩)
          ⟨["10.0.0.0/8"], ["fd00::/8"], ["line"]⟩
        = ⟨["10.0.0.0/8"], ["fd00::/8", "hello world", "not an address"], ["line"]⟩ :=
  ⟨by decide,
    (empty_body_contributes_nothing "https://www.cloudflare.com/ips-v4"
      ⟨200, "200 OK", ⟨"", none, true⟩⟩ ⟨["10.0.0.0/8"], ["fd00::/8"], ["line"]⟩
      (by decide)).1 rfl rfl,
    ((empty_body_contributes_nothing "https://www.cloudflare.com/ips-v6"
      ⟨200, "200 OK", ⟨"hello world\nnot an address\r\n", none, false⟩⟩
      ⟨["10.0.0.0/8"], ["fd00::/8"], ["line"]⟩ (by decide)).2.1 (by decide)).2.trans
      (by decide)⟩

/-- C6, as the claim states it, fails: with the same responses and the same
timestamp, two orders of completion of the two IPv4 sources give two
different files. -/
theorem completion_order_changes_file :
    List.Perm
        [("https://uptimerobot.com/inc/files/ips/IPv4.txt",
            GetResult.response ⟨200, "200 OK", ⟨"3.3.3.3\n", none, false⟩⟩),
          ("https://www.cloudflare.com/ips-v6", GetResult.error "timeout"),
          ("https://www.cloudflare.com/ips-v4",
            GetResult.response ⟨200, "200 OK", ⟨"1.1.1.0/24\n", none, false⟩⟩),
          ("https://uptimerobot.com/inc/files/ips/IPv6.txt", GetResult.error "timeout")]
        (IP_URLS.zip
          [GetResult.response ⟨200, "200 OK", ⟨"1.1.1.0/24\n", none, false⟩⟩,
            GetResult.error "timeout",
            GetResult.response ⟨200, "200 OK", ⟨"3.3.3.3\n", none, false⟩⟩,
            GetResult.error "timeout"])
      ∧ (main IP_URLS CUSTOM_ALLOW_LIST
          ⟨"linux", fun _ => false, fun _ => none, fun _ => none, fun _ _ => none, "T"⟩
          (IP_URLS.zip
            [GetResult.response ⟨200, "200 OK", ⟨"1.1.1.0/24\n", none, false⟩⟩,
              GetResult.error "timeout",
              GetResult.response ⟨200, "200 OK", ⟨"3.3.3.3\n", none, false⟩⟩,
              GetResult.error "timeout"])).file
        = some ("# This file was automatically generated on: T\n"
          ++ "# This file was automatically generated from the following sources:\n"
          ++ "# https://www.cloudflare.com/ips-v4\n# https://www.cloudflare.com/ips-v6\n"
          ++ "# https://uptimerobot.com/inc/files/ips/IPv4.txt\n"
          ++ "# https://uptimerobot.com/inc/files/ips/IPv6.txt\n"
          ++ "\n# User defined list\nallow 192.168.50.0/24;\n"
          ++ "\n# IPv4\nallow 1.1.1.0/24;\nallow 3.3.3.3;\n"
          ++ "\n# IPv6\n\n# Deny all remaining ips\ndeny all;")
      ∧ (main IP_URLS CUSTOM_ALLOW_LIST
          ⟨"linux", fun _ => false, fun _ => none, fun _ => none, fun _ _ => none, "T"⟩
          [("https://uptimerobot.com/inc/files/ips/IPv4.txt",
              GetResult.response ⟨200, "200 OK", ⟨"3.3.3.3\n", none, false⟩⟩),
            ("https://www.cloudflare.com/ips-v6", GetResult.error "timeout"),
            ("https://www.cloudflare.com/ips-v4",
              GetResult.response ⟨200, "200 OK", ⟨"1.1.1.0/24\n", none, false⟩⟩),
            ("https://uptimerobot.com/inc/files/ips/IPv6.txt", GetResult.error "timeout")]).file
        = some ("# This file was automatically generated on: T\n"
          ++ "# This file was automatically generated from the following sources:\n"
          ++ "# https://www.cloudflare.com/ips-v4\n# https://www.cloudflare.com/ips-v6\n"
          ++ "# https://uptimerobot.com/inc/files/ips/IPv4.txt\n"
          ++ "# https://uptimerobot.com/inc/files/ips/IPv6.txt\n"
          ++ "\n# User defined list\nallow 192.168.50.0/24;\n"
          ++ "\n# IPv4\nallow 3.3.3.3;\nallow 1.1.1.0/24;\n"
          ++ "\n# IPv6\n\n# Deny all remaining ips\ndeny all;")
      ∧ (main IP_URLS CUSTOM_ALLOW_LIST
          ⟨"linux", fun _ => false, fun _ => none, fun _ => none, fun _ _ => none, "T"⟩
          (IP_URLS.zip
            [GetResult.response ⟨200, "200 OK", ⟨"1.1.1.0/24\n", none, false⟩⟩,
              GetResult.error "timeout",
              GetResult.response ⟨200, "200 OK", ⟨"3.3.3.3\n", none, false⟩⟩,
              GetResult.error "timeout"])).file
        ≠ (main IP_URLS CUSTOM_ALLOW_LIST
          ⟨"linux", fun _ => false, fun _ => none, fun _ => none, fun _ _ => none, "T"⟩
          [("https://uptimerobot.com/inc/files/ips/IPv4.txt",
              GetResult.response ⟨200, "200 OK", ⟨"3.3.3.3\n", none, false⟩⟩),
            ("https://www.cloudflare.com/ips-v6", GetResult.error "timeout"),
            ("https://www.cloudflare.com/ips-v4",
              GetResult.response ⟨200, "200 OK", ⟨"1.1.1.0/24\n", none, false⟩⟩),
            ("https://uptimerobot.com/inc/files/ips/IPv6.txt", GetResult.error "timeout")]).file := by
  refine ⟨by decide, by decide, by decide, by decide⟩

/-- C6, amended: for the same responses, two runs that both write their
output file and in which the sources of each family complete in the same
order write files that are the same after the timestamp line; whatever the
two orders of completion, the IPv4 lists of the two runs hold the same
entries up to their order, and so do the IPv6 lists. -/
theorem same_order_same_file (urls custom : List String) (env1 env2 : Env)
    (c1 c2 : List (String × GetResult)) (hperm : c1.Perm c2) :
    (collect c1).ipv4List.Perm (collect c2).ipv4List
      ∧ (collect c1).ipv6List.Perm (collect c2).ipv6List
      ∧ (∀ file1 file2 : String,
          (main urls custom env1 c1).file = some file1 →
          (main urls custom env2 c2).file = some file2 →
          (c1.filter fun src => Contains src.1 "v4" == true)
            = (c2.filter fun src => Contains src.1 "v4" == true) →
          (c1.filter fun src => Contains src.1 "v4" == false)
            = (c2.filter fun src => Contains src.1 "v4" == false) →
          ∃ rest : String,
            file1 = "# This file was automatically generated on: " ++ env1.now ++ "\n" ++ rest
              ∧ file2
                = "# This file was automatically generated on: " ++ env2.now ++ "\n" ++ rest) := by
  obtain ⟨a4, a6⟩ := collect_lists c1
  obtain ⟨b4, b6⟩ := collect_lists c2
  refine ⟨?_, ?_, fun file1 file2 hfile1 hfile2 h4 h6 => ?_⟩
  · rw [a4, b4]; exact familyBlocks_perm true c1 c2 hperm
  · rw [a6, b6]; exact familyBlocks_perm false c1 c2 hperm
  · have e4 : (collect c1).ipv4List = (collect c2).ipv4List := by
      rw [a4, b4]; simp only [familyBlocks, h4]
    have e6 : (collect c1).ipv6List = (collect c2).ipv6List := by
      rw [a6, b6]; simp only [familyBlocks, h6]
    have t1 := main_file_eq urls custom env1 c1 file1 hfile1
    have t2 := main_file_eq urls custom env2 c2 file2 hfile2
    rw [e4, e6, writeFileText_eq] at t1
    rw [writeFileText_eq] at t2
    refine ⟨"# This file was automatically generated from the following sources:\n"
      ++ String.join (urls.map fun url => "# " ++ url ++ "\n")
      ++ "\n# User defined list\n" ++ String.join (custom.map fun ip => "allow " ++ ip ++ ";\n")
      ++ "\n# IPv4\n"
      ++ String.join ((collect c2).ipv4List.map fun ip => "allow " ++ ip ++ ";\n")
      ++ "\n# IPv6\n"
      ++ String.join ((collect c2).ipv6List.map fun ip => "allow " ++ ip ++ ";\n")
      ++ "\n# Deny all remaining ips\n" ++ "deny all;", ?_, ?_⟩
    · rw [t1]; simp only [String.append_assoc]
    · rw [t2]; simp only [String.append_assoc]

/-- Two runs of the four configured sources at different times: in the
second run each IPv6 source completes before the IPv4 source it followed in
the first, and the sources of each family keep their order. -/
theorem same_order_same_file_witness :
    List.Perm
        [("https://www.cloudflare.com/ips-v4",
              GetResult.response ⟨200, "200 OK", ⟨"1.1.1.0/24\n", none, false⟩⟩),
            ("https://www.cloudflare.com/ips-v6",
              GetResult.response ⟨200, "200 OK", ⟨"2001:db8::/32\n", none, false⟩⟩),
            ("https://uptimerobot.com/inc/files/ips/IPv4.txt",
              GetResult.response ⟨200, "200 OK", ⟨"3.3.3.3\n", none, false⟩⟩),
            ("https://uptimerobot.com/inc/files/ips/IPv6.txt", GetResult.error "timeout")]
        [("https://www.cloudflare.com/ips-v6",
              GetResult.response ⟨200, "200 OK", ⟨"2001:db8::/32\n", none, false⟩⟩),
            ("https://www.cloudflare.com/ips-v4",
              GetResult.response ⟨200, "200 OK", ⟨"1.1.1.0/24\n", none, false⟩⟩),
            ("https://uptimerobot.com/inc/files/ips/IPv6.txt", GetResult.error "timeout"),
            ("https://uptimerobot.com/inc/files/ips/IPv4.txt",
              GetResult.response ⟨200, "200 OK", ⟨"3.3.3.3\n", none, false⟩⟩)]
      ∧ (main IP_URLS CUSTOM_ALLOW_LIST
          ⟨"linux", fun _ => false, fun _ => none, fun _ => none, fun _ _ => none, "T1"⟩
          [("https://www.cloudflare.com/ips-v4",
              GetResult.response ⟨200, "200 OK", ⟨"1.1.1.0/24\n", none, false⟩⟩),
            ("https://www.cloudflare.com/ips-v6",
              GetResult.response ⟨200, "200 OK", ⟨"2001:db8::/32\n", none, false⟩⟩),
            ("https://uptimerobot.com/inc/files/ips/IPv4.txt",
              GetResult.response ⟨200, "200 OK", ⟨"3.3.3.3\n", none, false⟩⟩),
            ("https://uptimerobot.com/inc/files/ips/IPv6.txt", GetResult.error "timeout")]).file
        = some ("# This file was automatically generated on: T1\n" ++ ("# This file was automatically generated from the following sources:\n"
          ++ "# https://www.cloudflare.com/ips-v4\n# https://www.cloudflare.com/ips-v6\n"
          ++ "# https://uptimerobot.com/inc/files/ips/IPv4.txt\n"
          ++ "# https://uptimerobot.com/inc/files/ips/IPv6.txt\n"
          ++ "\n# User defined list\nallow 192.168.50.0/24;\n"
          ++ "\n# IPv4\nallow 1.1.1.0/24;\nallow 3.3.3.3;\n"
          ++ "\n# IPv6\nallow 2001:db8::/32;\n"
          ++ "\n# Deny all remaining ips\ndeny all;"))
      ∧ (main IP_URLS CUSTOM_ALLOW_LIST
          ⟨"linux", fun _ => false, fun _ => none, fun _ => none, fun _ _ => none, "T2"⟩
          [("https://www.cloudflare.com/ips-v6",
              GetResult.response ⟨200, "200 OK", ⟨"2001:db8::/32\n", none, false⟩⟩),
            ("https://www.cloudflare.com/ips-v4",
              GetResult.response ⟨200, "200 OK", ⟨"1.1.1.0/24\n", none, false⟩⟩),
            ("https://uptimerobot.com/inc/files/ips/IPv6.txt", GetResult.error "timeout"),
            ("https://uptimerobot.com/inc/files/ips/IPv4.txt",
              GetResult.response ⟨200, "200 OK", ⟨"3.3.3.3\n", none, false⟩⟩)]).file
        = some ("# This file was automatically generated on: T2\n" ++ ("# This file was automatically generated from the following sources:\n"
          ++ "# https://www.cloudflare.com/ips-v4\n# https://www.cloudflare.com/ips-v6\n"
          ++ "# https://uptimerobot.com/inc/files/ips/IPv4.txt\n"
          ++ "# https://uptimerobot.com/inc/files/ips/IPv6.txt\n"
          ++ "\n# User defined list\nallow 192.168.50.0/24;\n"
          ++ "\n# IPv4\nallow 1.1.1.0/24;\nallow 3.3.3.3;\n"
          ++ "\n# IPv6\nallow 2001:db8::/32;\n"
          ++ "\n# Deny all remaining ips\ndeny all;"))
      ∧ ∃ rest : String,
        "# This file was automatically generated on: T1\n" ++ ("# This file was automatically generated from the following sources:\n"
          ++ "# https://www.cloudflare.com/ips-v4\n# https://www.cloudflare.com/ips-v6\n"
          ++ "# https://uptimerobot.com/inc/files/ips/IPv4.txt\n"
          ++ "# https://uptimerobot.com/inc/files/ips/IPv6.txt\n"
          ++ "\n# User defined list\nallow 192.168.50.0/24;\n"
          ++ "\n# IPv4\nallow 1.1.1.0/24;\nallow 3.3.3.3;\n"
          ++ "\n# IPv6\nallow 2001:db8::/32;\n"
          ++ "\n# Deny all remaining ips\ndeny all;")
            = "# This file was automatically generated on: " ++ "T1" ++ "\n" ++ rest
          ∧ "# This file was automatically generated on: T2\n" ++ ("# This file was automatically generated from the following sources:\n"
          ++ "# https://www.cloudflare.com/ips-v4\n# https://www.cloudflare.com/ips-v6\n"
          ++ "# https://uptimerobot.com/inc/files/ips/IPv4.txt\n"
          ++ "# https://uptimerobot.com/inc/files/ips/IPv6.txt\n"
          ++ "\n# User defined list\nallow 192.168.50.0/24;\n"
          ++ "\n# IPv4\nallow 1.1.1.0/24;\nallow 3.3.3.3;\n"
          ++ "\n# IPv6\nallow 2001:db8::/32;\n"
          ++ "\n# Deny all remaining ips\ndeny all;")
            = "# This file was automatically generated on: " ++ "T2" ++ "\n" ++ rest :=
  ⟨by decide, by decide, by decide,
    (same_order_same_file IP_URLS CUSTOM_ALLOW_LIST
      ⟨"linux", fun _ => false, fun _ => none, fun _ => none, fun _ _ => none, "T1"⟩
      ⟨"linux", fun _ => false, fun _ => none, fun _ => none, fun _ _ => none, "T2"⟩
      [("https://www.cloudflare.com/ips-v4",
              GetResult.response ⟨200, "200 OK", ⟨"1.1.1.0/24\n", none, false⟩⟩),
            ("https://www.cloudflare.com/ips-v6",
              GetResult.response ⟨200, "200 OK", ⟨"2001:db8::/32\n", none, false⟩⟩),
            ("https://uptimerobot.com/inc/files/ips/IPv4.txt",
              GetResult.response ⟨200, "200 OK", ⟨"3.3.3.3\n", none, false⟩⟩),
            ("https://uptimerobot.com/inc/files/ips/IPv6.txt", GetResult.error "timeout")]
      [("https://www.cloudflare.com/ips-v6",
              GetResult.response ⟨200, "200 OK", ⟨"2001:db8::/32\n", none, false⟩⟩),
            ("https://www.cloudflare.com/ips-v4",
              GetResult.response ⟨200, "200 OK", ⟨"1.1.1.0/24\n", none, false⟩⟩),
            ("https://uptimerobot.com/inc/files/ips/IPv6.txt", GetResult.error "timeout"),
            ("https://uptimerobot.com/inc/files/ips/IPv4.txt",
              GetResult.response ⟨200, "200 OK", ⟨"3.3.3.3\n", none, false⟩⟩)]
      (by decide)).2.2 _ _ (by decide) (by decide) (by decide) (by decide)⟩

end NginxAllowlist
